import Mathlib

/-!
# Verification of the inventory code-extraction and reconciliation pipeline

Shallow embedding of `src/app.py` (a Streamlit inventory application).
Strings are modelled as `List Char`; Python's ASCII-relevant string
operations (`lower`, `upper`, `strip`, `replace`, `in`, `startswith`,
regular expressions `b\d{6,8}` and `^B\d{6,8}$`) are modelled over that
type.  The pandas DataFrame is modelled as a list of named columns whose
cells are `Option (List Char)` (`none` plays the role of NaN), the
openpyxl worksheet as an association list from cell references to cells
plus a `max_row` counter, and Python exceptions (`KeyError` from a missing
DataFrame column, I/O errors from `wb.save`) via `Except`.
-/

/-- Strings of the embedded program: lists of characters. -/
abbrev Str := List Char

/-- A Lean string literal as an embedded string. -/
def strLit (s : String) : Str := s.data

/-- ASCII upper-case letter test (`'A'`..`'Z'`). -/
def isUpperCh (c : Char) : Bool := 65 ≤ c.toNat && c.toNat ≤ 90

/-- ASCII lower-case letter test (`'a'`..`'z'`). -/
def isLowerCh (c : Char) : Bool := 97 ≤ c.toNat && c.toNat ≤ 122

/-- ASCII decimal digit test, the characters matched by `\d` in the
source's regular expressions. -/
def isDigitCh (c : Char) : Bool := 48 ≤ c.toNat && c.toNat ≤ 57

/-- Python `str.lower` on one character (ASCII range, which is all the
pipeline's code alphabet uses). -/
def lowerChar (c : Char) : Char :=
  if isUpperCh c then Char.ofNat (c.toNat + 32) else c

/-- Python `str.upper` on one character (ASCII range). -/
def upperChar (c : Char) : Char :=
  if isLowerCh c then Char.ofNat (c.toNat - 32) else c

/-- The whitespace characters Python's `str.strip` removes (ASCII part). -/
def isSpaceCh (c : Char) : Bool :=
  c == ' ' || c == '\t' || c == '\n' || c == '\r' ||
  c == Char.ofNat 11 || c == Char.ofNat 12

/-- Remove leading whitespace (the left half of Python `str.strip`). -/
def trimL (l : Str) : Str := l.dropWhile isSpaceCh

/-- Remove trailing whitespace (the right half of Python `str.strip`). -/
def trimR : Str → Str
  | [] => []
  | a :: t =>
    if (trimR t).isEmpty then (if isSpaceCh a then [] else [a])
    else a :: trimR t

/-- Python `str.strip`: remove whitespace at both ends. -/
def stripL (l : Str) : Str := trimR (trimL l)

/-- Does the first list start the second?  (Python `str.startswith`, and
the work-horse of substring search.) -/
def startsWithL : Str → Str → Bool
  | [], _ => true
  | _ :: _, [] => false
  | a :: n, b :: h => a == b && startsWithL n h

/-- Python's `needle in haystack` substring test. -/
def containsSub (n : Str) : Str → Bool
  | [] => n.isEmpty
  | b :: h => startsWithL n (b :: h) || containsSub n h

/-! ## Code Extractor (`detectar_codigos`, app.py lines 37-56) -/

/-- The exclusion list of `detectar_codigos` (app.py lines 38-46). -/
def frases_prohibidas : List Str :=
  [strLit "sistemadeinformacionbibliografico",
   strLit "sistemadeinformacion",
   strLit "bibliografico",
   strLit "biblioteca",
   strLit "universidad",
   strLit "cooperativa",
   strLit "colombia"]

/-- Line 49: `t.lower().replace(" ", "").replace("-", "").strip()`.
Note that `replace(" ", "")` removes only the space character, not other
whitespace; `strip` then removes remaining boundary whitespace only. -/
def normalizeTok (t : Str) : Str :=
  stripL (((t.map lowerChar).filter (fun c => !(c == ' '))).filter
    (fun c => !(c == '-')))

/-- Line 52: `re.fullmatch(r"b\d{6,8}", t_limpio)` — the (already
lower-cased) token is the letter `b` followed by 6 to 8 digits. -/
def strictMatch (t : Str) : Bool :=
  match t with
  | c :: rest =>
    c == 'b' && rest.all isDigitCh &&
      decide (6 ≤ rest.length) && decide (rest.length ≤ 8)
  | [] => false

/-- Line 54: `t_limpio.startswith("b") and len(t_limpio) >= 7`. -/
def esLenient (t : Str) : Bool :=
  startsWithL (strLit "b") t && decide (7 ≤ t.length)

/-- The loop body of `detectar_codigos` (lines 47-55): the list
`posibles_codigos` in scan order, each surviving token upper-cased. -/
def posibles_codigos : List Str → List Str
  | [] => []
  | t :: ts =>
    let tl := normalizeTok t
    if frases_prohibidas.any (fun f => containsSub f tl) then
      posibles_codigos ts
    else if strictMatch tl then tl.map upperChar :: posibles_codigos ts
    else if esLenient tl then tl.map upperChar :: posibles_codigos ts
    else posibles_codigos ts

/-- One comparison step of Python's `max(xs, key=len)`: the running
maximum is replaced only on a strictly greater key. -/
def maxStep (acc y : Str) : Str :=
  if decide (acc.length < y.length) then y else acc

/-- Python's `max(xs, key=len)`: the first element of maximal length. -/
def maxByLen : List Str → Option Str
  | [] => none
  | x :: xs => some (xs.foldl maxStep x)

/-- Line 56: `max(posibles_codigos, key=len) if posibles_codigos else None`. -/
def detectar_codigos (textos : List Str) : Option Str :=
  maxByLen (posibles_codigos textos)

example : detectar_codigos [strLit "b123456", strLit "B12345678"]
    = some (strLit "B12345678") := by decide

example : detectar_codigos
    [strLit "Biblioteca Universidad", strLit "B1234567", strLit "junk"]
    = some (strLit "B1234567") := by decide

example : detectar_codigos [strLit "bxxxxxxx"] = some (strLit "BXXXXXXX") := by
  decide

example : detectar_codigos [strLit "universidad"] = none := by decide

/-! ## Code Validator (`validar_codigo`, app.py lines 59-64) -/

/-- The Python exceptions the pipeline can raise: a missing-key error from
indexing a DataFrame column that does not exist, and an I/O error from
`wb.save`. -/
inductive PyErr where
  | keyError (k : Str)
  | ioError (m : Str)
deriving DecidableEq

deriving instance DecidableEq for Except

/-- The in-memory pandas DataFrame: named columns of optional string
cells (`none` models NaN). -/
structure DataFrame where
  cols : List (Str × List (Option Str))
deriving DecidableEq

/-- `df[k]`: the values of column `k`, or a `KeyError` when no column is
named `k`. -/
def dfGet (df : DataFrame) (k : Str) : Except PyErr (List (Option Str)) :=
  match df.cols.find? (fun p => p.1 == k) with
  | some p => Except.ok p.2
  | none => Except.error (PyErr.keyError k)

/-- Column values with `[]` as fallback (used where the source has already
established the column exists). -/
def dfGetD (df : DataFrame) (k : Str) : List (Option Str) :=
  match dfGet df k with
  | Except.ok v => v
  | Except.error _ => []

def msgFormato : Str :=
  strLit "Formato inválido (debe ser B seguido de 6-8 dígitos)."

def msgExiste : Str := strLit "Código ya existe."

/-- Line 60: `re.fullmatch(r"^B\d{6,8}$", codigo)` — upper-case `B`
followed by 6 to 8 digits and nothing else. -/
def strictMatchUpper (t : Str) : Bool :=
  match t with
  | c :: rest =>
    c == 'B' && rest.all isDigitCh &&
      decide (6 ≤ rest.length) && decide (rest.length ≤ 8)
  | [] => false

/-- `validar_codigo` (lines 59-64): format check first, then the duplicate
check `codigo in df['codigo'].values`, which indexes the fixed column name
`codigo` and therefore raises `KeyError` when that exact column is absent.
The function reads the DataFrame and returns only a `(valido, mensaje)`
pair: it performs no mutation. -/
def validar_codigo (codigo : Str) (df : DataFrame) :
    Except PyErr (Bool × Str) :=
  if strictMatchUpper codigo = false then Except.ok (false, msgFormato)
  else
    match dfGet df (strLit "codigo") with
    | Except.error e => Except.error e
    | Except.ok vals =>
      if vals.contains (some codigo) then Except.ok (false, msgExiste)
      else Except.ok (true, [])

/-! ## Inventory Reconciler (`actualizar_excel`, app.py lines 67-88, and
its caller, lines 180-191) -/

/-- The two marker fills (app.py lines 18-19). -/
inductive Fill where
  | verde
  | morado
deriving DecidableEq

/-- One worksheet cell: value, background fill and bold flag. -/
structure Cell where
  val : Option Str
  fill : Option Fill
  bold : Bool
deriving DecidableEq

def emptyCell : Cell := ⟨none, none, false⟩

/-- The openpyxl worksheet: cells addressed by (column letter, row), plus
`max_row`.  Touching a cell materialises it and can only extend
`max_row`, as in openpyxl. -/
structure Sheet where
  cells : List ((Char × Nat) × Cell)
  maxRow : Nat
deriving DecidableEq

/-- Update the binding of `r` (creating it from `emptyCell` if absent). -/
def updCell : List ((Char × Nat) × Cell) → (Char × Nat) → (Cell → Cell) →
    List ((Char × Nat) × Cell)
  | [], r, f => [(r, f emptyCell)]
  | (r', c) :: t, r, f =>
    if r' = r then (r', f c) :: t else (r', c) :: updCell t r f

/-- Read a cell (an untouched cell is empty). -/
def getCell (s : Sheet) (r : Char × Nat) : Cell :=
  match s.cells.find? (fun p => p.1 == r) with
  | some p => p.2
  | none => emptyCell

def setFill (s : Sheet) (r : Char × Nat) (f : Fill) : Sheet :=
  ⟨updCell s.cells r (fun c => { c with fill := some f }), max s.maxRow r.2⟩

def setFont (s : Sheet) (r : Char × Nat) (b : Bool) : Sheet :=
  ⟨updCell s.cells r (fun c => { c with bold := b }), max s.maxRow r.2⟩

def setValue (s : Sheet) (r : Char × Nat) (v : Str) : Sheet :=
  ⟨updCell s.cells r (fun c => { c with val := some v }), max s.maxRow r.2⟩

/-- Line 83: `pd.concat([df, pd.DataFrame({'codigo': [codigo]})],
ignore_index=True)`: every existing column gains one cell — the new code
under `codigo`, NaN elsewhere — and a `codigo` column is created when the
frame lacks one. -/
def appendRow (df : DataFrame) (codigo : Str) : DataFrame :=
  if df.cols.any (fun p => p.1 == strLit "codigo") then
    ⟨df.cols.map (fun p =>
      (p.1, p.2 ++ [if p.1 = strLit "codigo" then some codigo else none]))⟩
  else
    ⟨df.cols.map (fun p => (p.1, p.2 ++ [none])) ++
      [(strLit "codigo",
        List.replicate ((df.cols.headD ([], [])).2.length) none ++ [some codigo])]⟩

/-- The mutable state one script run threads through the reconcile steps:
the openpyxl worksheet `wb`/`sheet`, the session DataFrame
(`st.session_state['df']`), the persisted store (the contents of
`inventario.xlsx`) and the single-generation backup file. -/
structure MutState where
  sheet : Sheet
  sessionDf : DataFrame
  file : Sheet
  backup : Option Sheet
deriving DecidableEq

def msgEncontrado (codigo : Str) : Str :=
  strLit "✔ Código " ++ codigo ++ strLit " encontrado y marcado en verde."

def msgAgregado (codigo : Str) : Str :=
  strLit "➕ Código nuevo agregado: " ++ codigo

def msgPendiente : Str := strLit "Pendiente de confirmación."

def msgError (e : Str) : Str := strLit "Error al actualizar Excel: " ++ e

/-- Python dict lookup for `codigo_a_fila` (with duplicate keys the last
binding wins, as in a dict comprehension). -/
def dictLookup (d : List (Str × Nat)) (k : Str) : Option Nat :=
  match d.reverse.find? (fun p => p.1 == k) with
  | some p => some p.2
  | none => none

/-- `actualizar_excel` (lines 67-88).  `idx` is the `codigo_a_fila` dict
the run computed up front (line 163); `confirmado` is what the
confirmation button `st.button(...)` returned; `excep` injects an
exception raised by the first backing-store cell operation of the body,
to model the `try`/`except` (line 87) that converts any such exception
into an `"Error al actualizar Excel: ..."` message.  Matched codes get
cell `A<fila>` filled green and bold; a confirmed new code is written to
cell `A<max_row+1>` in purple bold and appended to the session DataFrame.
The dict `idx` itself is never updated. -/
def actualizar_excel (codigo : Str) (idx : List (Str × Nat)) (ms : MutState)
    (confirmado : Bool) (excep : Option Str) : Str × MutState :=
  match excep with
  | some e => (msgError e, ms)
  | none =>
    match dictLookup idx codigo with
    | some fila =>
      let sh := setFont (setFill ms.sheet ('A', fila) Fill.verde) ('A', fila) true
      (msgEncontrado codigo, { ms with sheet := sh })
    | none =>
      if confirmado then
        let nueva := ms.sheet.maxRow + 1
        let sh := setFont (setFill (setValue ms.sheet ('A', nueva) codigo)
          ('A', nueva) Fill.morado) ('A', nueva) true
        (msgAgregado codigo,
          { ms with sheet := sh, sessionDf := appendRow ms.sessionDf codigo })
      else (msgPendiente, ms)

/-- Lines 154-158: the first column whose lower-cased name contains the
substring `codigo`. -/
def codigo_columna (df : DataFrame) : Option Str :=
  match df.cols.find? (fun p => containsSub (strLit "codigo") (p.1.map lowerChar)) with
  | some p => some p.1
  | none => none

/-- Python `str(...)` of a cell value (`str(nan)` is `"nan"`). -/
def pyStr : Option Str → Str
  | some s => s
  | none => strLit "nan"

/-- Line 163: `{str(row[codigo_columna]).strip(): idx + 2 for idx, row in
df.iterrows()}` — the code→row dict, built once per script run from the
detected code column (row 1 is the header, data starts at row 2). -/
def codigo_a_fila (df : DataFrame) : List (Str × Nat) :=
  match codigo_columna df with
  | some c => (dfGetD df c).enum.map (fun p => (stripL (pyStr p.2), p.1 + 2))
  | none => []

/-- One scan-validate-reconcile-persist step (lines 182-191): validate
against the run's local DataFrame `df0`, reconcile via `actualizar_excel`,
and — when the returned message contains `"agregado"` or `"marcado"` —
back up the store file and save the workbook.  `fallaSave` injects a
failure of `wb.save` (line 190), which the source wraps in no
`try`/`except`: it propagates as an uncaught exception, as does a
`KeyError` escaping `validar_codigo` (line 182). -/
def escaneo_paso (codigo : Str) (df0 : DataFrame) (idx : List (Str × Nat))
    (ms : MutState) (confirmado : Bool) (excep fallaSave : Option Str) :
    Except PyErr (Str × MutState) :=
  match validar_codigo codigo df0 with
  | Except.error e => Except.error e
  | Except.ok (valido, mensaje) =>
    if valido = false then Except.ok (mensaje, ms)
    else
      let r := actualizar_excel codigo idx ms confirmado excep
      if containsSub (strLit "agregado") r.1 ||
          containsSub (strLit "marcado") r.1 then
        let ms2 := { r.2 with backup := some r.2.file }
        match fallaSave with
        | some e => Except.error (PyErr.ioError e)
        | none => Except.ok (r.1, { ms2 with file := ms2.sheet })
      else Except.ok (r.1, r.2)

/-! ## Lemmas about the string model -/

theorem isUpperCh_lowerChar (c : Char) : isUpperCh (lowerChar c) = false := by
  unfold lowerChar
  by_cases h : isUpperCh c = true
  · rw [if_pos h]
    have h1 : 65 ≤ c.toNat ∧ c.toNat ≤ 90 := by simpa [isUpperCh] using h
    obtain ⟨h1, h2⟩ := h1
    generalize hg : c.toNat = n at h1 h2 ⊢
    interval_cases n <;> decide
  · rw [if_neg h]
    simpa using h

theorem lowerChar_eq_self (c : Char) (h : isUpperCh c = false) :
    lowerChar c = c := by
  unfold lowerChar
  simp [h]

theorem lowerChar_idem (c : Char) : lowerChar (lowerChar c) = lowerChar c :=
  lowerChar_eq_self _ (isUpperCh_lowerChar c)

theorem trimR_cons (a : Char) (t : Str) :
    trimR (a :: t) =
      if (trimR t).isEmpty then (if isSpaceCh a then [] else [a])
      else a :: trimR t := rfl

theorem mem_trimR {c : Char} : ∀ {l : Str}, c ∈ trimR l → c ∈ l := by
  intro l
  induction l with
  | nil => simp [trimR]
  | cons a t ih =>
    intro h
    rw [trimR_cons] at h
    split at h
    · split at h
      · simp at h
      · simp at h
        simp [h]
    · rcases List.mem_cons.mp h with h | h
      · simp [h]
      · exact List.mem_cons_of_mem a (ih h)

theorem trimR_idem : ∀ (l : Str), trimR (trimR l) = trimR l := by
  intro l
  induction l with
  | nil => rfl
  | cons a t ih =>
    rw [trimR_cons]
    split
    · split
      · rfl
      · next hs => simp [trimR, hs]
    · next he =>
      rw [trimR_cons, ih, if_neg he]

theorem trimR_head : ∀ {l : Str} {a : Char} {r : Str},
    trimR l = a :: r → ∃ t, l = a :: t := by
  intro l a r h
  cases l with
  | nil => simp [trimR] at h
  | cons b t =>
    rw [trimR_cons] at h
    split at h
    · split at h
      · cases h
      · cases h
        exact ⟨t, rfl⟩
    · cases h
      exact ⟨t, rfl⟩

theorem trimL_head : ∀ {l : Str} {a : Char} {r : Str},
    trimL l = a :: r → isSpaceCh a = false := by
  intro l
  induction l with
  | nil => intro a r h; simp [trimL] at h
  | cons b t ih =>
    intro a r h
    by_cases hs : isSpaceCh b = true
    · exact ih (by simpa [trimL, List.dropWhile_cons, hs] using h)
    · rw [trimL, List.dropWhile_cons, if_neg (by simp [hs])] at h
      cases h
      simpa using hs

theorem trimL_eq_self {l : Str} (h : ∀ a r, l = a :: r → isSpaceCh a = false) :
    trimL l = l := by
  cases l with
  | nil => rfl
  | cons a t => simp [trimL, List.dropWhile_cons, h a t rfl]

theorem mem_trimL {c : Char} {l : Str} (h : c ∈ trimL l) : c ∈ l :=
  (List.dropWhile_sublist isSpaceCh).mem h

theorem mem_stripL {c : Char} {l : Str} (h : c ∈ stripL l) : c ∈ l :=
  mem_trimL (mem_trimR h)

theorem stripL_idem (l : Str) : stripL (stripL l) = stripL l := by
  unfold stripL
  cases hy : trimR (trimL l) with
  | nil => simp [trimL, trimR]
  | cons a t =>
    have hx : ∃ t', trimL l = a :: t' := trimR_head hy
    obtain ⟨t', hx⟩ := hx
    have hsp : isSpaceCh a = false := trimL_head hx
    have h1 : trimL (a :: t) = a :: t := by
      simp [trimL, List.dropWhile_cons, hsp]
    rw [h1, ← hy, trimR_idem]

theorem map_id_of_mem {l : List Char} {f : Char → Char}
    (h : ∀ c ∈ l, f c = c) : l.map f = l := by
  induction l with
  | nil => rfl
  | cons a t ih =>
    simp only [List.map_cons]
    rw [h a (by simp), ih (fun c hc => h c (by simp [hc]))]

/-! ## Claim C6 — the Text Normalizer -/

/-- C6 counterexample: the claim says the Normalizer's output "contains no
whitespace character" for every input, but on the input `"a\tb"` the
interior tab character survives normalization (line 49 removes only the
space character `" "` via `replace(" ", "")`, and `strip()` removes
whitespace at the boundaries only), so the output contains the whitespace
character `'\t'`. -/
theorem c6_normalizer_whitespace_counterexample :
    normalizeTok (strLit "a\tb") = strLit "a\tb" ∧
    ('\t' ∈ normalizeTok (strLit "a\tb") ∧ isSpaceCh '\t' = true) := by
  decide

/-- C6 (amended): for every input string the Normalizer's output is
lower-case (contains no upper-case letter), contains no space character
and no hyphen, and the Normalizer is idempotent:
`normalize (normalize x) = normalize x`.  (Interior whitespace other than
the space character, such as a tab, may remain.) -/
theorem c6_normalizer_lowercase_nospace_idempotent (t : Str) :
    (∀ c, c ∈ normalizeTok t → isUpperCh c = false ∧ c ≠ ' ' ∧ c ≠ '-') ∧
    normalizeTok (normalizeTok t) = normalizeTok t := by
  have hall : ∀ c, c ∈ normalizeTok t →
      isUpperCh c = false ∧ c ≠ ' ' ∧ c ≠ '-' := by
    intro c hc
    unfold normalizeTok at hc
    have hc2 := mem_stripL hc
    rw [List.mem_filter] at hc2
    obtain ⟨hc1, hdash⟩ := hc2
    rw [List.mem_filter] at hc1
    obtain ⟨hcm, hsp⟩ := hc1
    rw [List.mem_map] at hcm
    obtain ⟨a, _, ha⟩ := hcm
    refine ⟨ha ▸ isUpperCh_lowerChar a, ?_, ?_⟩
    · simpa using hsp
    · simpa using hdash
  refine ⟨hall, ?_⟩
  conv_lhs => rw [normalizeTok]
  rw [map_id_of_mem (fun c hc => lowerChar_eq_self c (hall c hc).1)]
  rw [List.filter_eq_self.mpr (fun c hc => by
    simp [(hall c (List.mem_filter.mp hc).1).2.2])]
  rw [List.filter_eq_self.mpr (fun c hc => by simp [(hall c hc).2.1])]
  unfold normalizeTok
  exact stripL_idem _

/-! ## Claim C4 — the Extractor returns the first longest candidate -/

/-- `List.foldl maxStep x xs` is the first element of maximal length of
`x :: xs`: it is a member, every member's length is at most its length,
and it occurs at a position before which every element is strictly
shorter. -/
theorem foldl_maxStep_spec (xs : List Str) : ∀ (x : Str),
    (xs.foldl maxStep x) ∈ x :: xs ∧
    (∀ d ∈ x :: xs, d.length ≤ (xs.foldl maxStep x).length) ∧
    ∃ pre post, x :: xs = pre ++ (xs.foldl maxStep x) :: post ∧
      ∀ d ∈ pre, d.length < (xs.foldl maxStep x).length := by
  induction xs with
  | nil =>
    intro x
    exact ⟨by simp, by simp, [], [], by simp, by simp⟩
  | cons y ys ih =>
    intro x
    rw [List.foldl_cons]
    obtain ⟨hmem, hmax, pre, post, hdec, hpre⟩ := ih (maxStep x y)
    by_cases hlt : x.length < y.length
    · have hs : maxStep x y = y := by simp [maxStep, hlt]
      rw [hs] at hmem hmax hdec hpre ⊢
      have hyr : y.length ≤ (List.foldl maxStep y ys).length := hmax y (by simp)
      refine ⟨List.mem_cons_of_mem x hmem, ?_, x :: pre, post, ?_, ?_⟩
      · intro d hd
        rcases List.mem_cons.mp hd with h | h
        · exact h ▸ le_of_lt (lt_of_lt_of_le hlt hyr)
        · exact hmax d h
      · rw [List.cons_append, ← hdec]
      · intro d hd
        rcases List.mem_cons.mp hd with h | h
        · exact h ▸ lt_of_lt_of_le hlt hyr
        · exact hpre d h
    · have hs : maxStep x y = x := by simp [maxStep, hlt]
      rw [hs] at hmem hmax hdec hpre ⊢
      have hxr : x.length ≤ (List.foldl maxStep x ys).length := hmax x (by simp)
      have hyx : y.length ≤ x.length := Nat.le_of_not_lt hlt
      have hmem' : List.foldl maxStep x ys ∈ x :: y :: ys := by
        rcases List.mem_cons.mp hmem with h | h
        · rw [h]
          exact List.mem_cons_self _ _
        · exact List.mem_cons_of_mem x (List.mem_cons_of_mem y h)
      have hmax' : ∀ d ∈ x :: y :: ys,
          d.length ≤ (List.foldl maxStep x ys).length := by
        intro d hd
        rcases List.mem_cons.mp hd with h | h
        · exact h ▸ hxr
        · rcases List.mem_cons.mp h with h' | h'
          · exact h' ▸ le_trans hyx hxr
          · exact hmax d (List.mem_cons_of_mem x h')
      cases pre with
      | nil =>
        simp only [List.nil_append] at hdec
        have hrx : x = List.foldl maxStep x ys := (List.cons_eq_cons.mp hdec).1
        refine ⟨hmem', hmax', [], y :: ys, ?_, by simp⟩
        rw [List.nil_append, ← hrx]
      | cons p pre' =>
        rw [List.cons_append] at hdec
        have hxp : x = p := (List.cons_eq_cons.mp hdec).1
        have hys : ys = pre' ++ List.foldl maxStep x ys :: post :=
          (List.cons_eq_cons.mp hdec).2
        have hxlt : x.length < (List.foldl maxStep x ys).length :=
          hpre x (hxp ▸ List.mem_cons_self p pre')
        refine ⟨hmem', hmax', x :: y :: pre', post, ?_, ?_⟩
        · rw [List.cons_append, List.cons_append, ← hys]
        · intro d hd
          rcases List.mem_cons.mp hd with h | h
          · exact h ▸ hxlt
          · rcases List.mem_cons.mp h with h' | h'
            · exact h' ▸ lt_of_le_of_lt hyx hxlt
            · exact hpre d (hxp ▸ List.mem_cons_of_mem p h')

/-- C4: whenever at least one candidate survives, the Extractor returns
the longest candidate, ties broken by first-seen order — the returned
candidate is a member of the candidate list, no candidate is longer, and
every candidate occurring before it is strictly shorter; in particular on
`["b123456", "B12345678"]` it returns `"B12345678"`. -/
theorem c4_extractor_longest_first_tiebreak (textos : List Str)
    (h : posibles_codigos textos ≠ []) :
    (∃ r pre post, detectar_codigos textos = some r ∧
      posibles_codigos textos = pre ++ r :: post ∧
      (∀ d ∈ posibles_codigos textos, d.length ≤ r.length) ∧
      (∀ d ∈ pre, d.length < r.length)) ∧
    detectar_codigos [strLit "b123456", strLit "B12345678"]
      = some (strLit "B12345678") := by
  refine ⟨?_, by decide⟩
  cases hp : posibles_codigos textos with
  | nil => exact absurd hp h
  | cons x xs =>
    obtain ⟨_, hmax, pre, post, hdec, hpre⟩ := foldl_maxStep_spec xs x
    refine ⟨xs.foldl maxStep x, pre, post, ?_, hdec, hmax, hpre⟩
    rw [detectar_codigos, hp]
    rfl

/-! ## Claim C5 — which tokens become candidates -/

/-- C5: a normalized token becomes a candidate exactly when it contains
no exclusion-list phrase as a substring and either fully matches
`b` + 6-8 digits (strict) or starts with `b` with length ≥ 7 (lenient);
surviving candidates are upper-cased.  The source's `if`/`elif` cascade
(lines 50-55) collapses to this single condition.  Moreover the result is
"none" exactly when no candidate survives, and the two spec examples
compute as stated. -/
theorem c5_candidate_characterization :
    (∀ t ts, posibles_codigos (t :: ts) =
      (if !(frases_prohibidas.any (fun f => containsSub f (normalizeTok t))) &&
          (strictMatch (normalizeTok t) || esLenient (normalizeTok t)) then
        (normalizeTok t).map upperChar :: posibles_codigos ts
      else posibles_codigos ts)) ∧
    (∀ textos, detectar_codigos textos = none ↔
      posibles_codigos textos = []) ∧
    detectar_codigos
      [strLit "Biblioteca Universidad", strLit "B1234567", strLit "junk"]
      = some (strLit "B1234567") ∧
    detectar_codigos [strLit "bxxxxxxx"] = some (strLit "BXXXXXXX") := by
  refine ⟨?_, ?_, by decide, by decide⟩
  · intro t ts
    by_cases h1 : frases_prohibidas.any
        (fun f => containsSub f (normalizeTok t)) = true
    · simp [posibles_codigos, h1]
    · by_cases h2 : strictMatch (normalizeTok t) = true
      · simp [posibles_codigos, h1, h2]
      · by_cases h3 : esLenient (normalizeTok t) = true
        · simp [posibles_codigos, h1, h2, h3]
        · simp [posibles_codigos, h1, h2, h3]
  · intro textos
    rw [detectar_codigos]
    cases hp : posibles_codigos textos <;> simp [maxByLen]

/-! ## Claim C2 — the Validator -/

/-- C2: the Validator yields the format error exactly when the candidate
does not fully match `^B\d{6,8}$`, otherwise the duplicate error exactly
when the candidate occurs among the values of the dataset's `codigo`
column, and otherwise succeeds; the spec's four examples are instances.
The embedding's type shows the Validator reads the DataFrame and returns
only a `(valido, mensaje)` pair, so the dataset is left unchanged. -/
theorem c2_validar_codigo_outcomes (codigo : Str) (df : DataFrame)
    (vals : List (Option Str))
    (h : dfGet df (strLit "codigo") = Except.ok vals) :
    (strictMatchUpper codigo = true ↔
      ∃ ds, codigo = 'B' :: ds ∧ ds.all isDigitCh = true ∧
        6 ≤ ds.length ∧ ds.length ≤ 8) ∧
    (strictMatchUpper codigo = false →
      validar_codigo codigo df = Except.ok (false, msgFormato)) ∧
    (strictMatchUpper codigo = true → vals.contains (some codigo) = true →
      validar_codigo codigo df = Except.ok (false, msgExiste)) ∧
    (strictMatchUpper codigo = true → vals.contains (some codigo) = false →
      validar_codigo codigo df = Except.ok (true, [])) ∧
    validar_codigo (strLit "B123") df = Except.ok (false, msgFormato) ∧
    validar_codigo (strLit "B1234567890") df = Except.ok (false, msgFormato) ∧
    validar_codigo (strLit "A1234567") df = Except.ok (false, msgFormato) ∧
    (vals.contains (some (strLit "B1234567")) = true →
      validar_codigo (strLit "B1234567") df = Except.ok (false, msgExiste)) := by
  refine ⟨?_, ?_, ?_, ?_,
    by simp [validar_codigo, show strictMatchUpper (strLit "B123") = false
      from by decide],
    by simp [validar_codigo, show strictMatchUpper (strLit "B1234567890")
      = false from by decide],
    by simp [validar_codigo, show strictMatchUpper (strLit "A1234567") = false
      from by decide], ?_⟩
  · constructor
    · intro hs
      cases codigo with
      | nil => simp [strictMatchUpper] at hs
      | cons c rest =>
        simp only [strictMatchUpper, Bool.and_eq_true, beq_iff_eq,
          decide_eq_true_eq] at hs
        exact ⟨rest, by rw [hs.1.1.1], hs.1.1.2, hs.1.2, hs.2⟩
    · rintro ⟨ds, rfl, hall, h6, h8⟩
      simp [strictMatchUpper, hall, h6, h8]
  · intro hs
    simp [validar_codigo, hs]
  · intro hs hdup
    have hdup' : some codigo ∈ vals := by simpa using hdup
    simp [validar_codigo, hs, h, hdup']
  · intro hs hdup
    have hdup' : some codigo ∉ vals := by simpa using hdup
    simp [validar_codigo, hs, h, hdup']
  · intro hdup
    have hdup' : some (strLit "B1234567") ∈ vals := by simpa using hdup
    simp [validar_codigo, h, hdup',
      show strictMatchUpper (strLit "B1234567") = true from by decide]

/-- A one-row DataFrame whose `codigo` column holds `B1234567`. -/
def dfEjemplo : DataFrame :=
  ⟨[(strLit "codigo", [some (strLit "B1234567")])]⟩

/-- C2 witness: the general statement applied to the concrete code
`"B7654321"` and the concrete one-row dataset `dfEjemplo`, extracting the
duplicate example: validating `"B1234567"` against a dataset already
containing it yields the duplicate error. -/
theorem c2_validar_codigo_outcomes_witness :
    validar_codigo (strLit "B1234567") dfEjemplo
      = Except.ok (false, msgExiste) :=
  (c2_validar_codigo_outcomes (strLit "B7654321") dfEjemplo
    [some (strLit "B1234567")] (by rfl)).2.2.2.2.2.2.2 (by decide)

/-- C4 witness: the general statement applied to the concrete fragment
list `["b123456", "B12345678"]`, whose candidate list is nonempty. -/
theorem c4_extractor_longest_first_tiebreak_witness :
    (∃ r pre post,
      detectar_codigos [strLit "b123456", strLit "B12345678"] = some r ∧
      posibles_codigos [strLit "b123456", strLit "B12345678"]
        = pre ++ r :: post ∧
      (∀ d ∈ posibles_codigos [strLit "b123456", strLit "B12345678"],
        d.length ≤ r.length) ∧
      (∀ d ∈ pre, d.length < r.length)) ∧
    detectar_codigos [strLit "b123456", strLit "B12345678"]
      = some (strLit "B12345678") :=
  c4_extractor_longest_first_tiebreak
    [strLit "b123456", strLit "B12345678"] (by decide)

/-! ## Lemmas about the worksheet model -/

theorem updCell_updCell_same (l : List ((Char × Nat) × Cell))
    (r : Char × Nat) (f g : Cell → Cell) :
    updCell (updCell l r f) r g = updCell l r (fun c => g (f c)) := by
  induction l with
  | nil => simp [updCell]
  | cons p t ih =>
    obtain ⟨r', c⟩ := p
    by_cases h : r' = r
    · simp [updCell, h]
    · simp [updCell, h, ih]

theorem updCell_congr (l : List ((Char × Nat) × Cell)) (r : Char × Nat)
    {f g : Cell → Cell} (h : ∀ c, f c = g c) :
    updCell l r f = updCell l r g := by
  rw [funext h]

theorem find?_updCell_ne (l : List ((Char × Nat) × Cell))
    (r ref : Char × Nat) (f : Cell → Cell) (h : ref ≠ r) :
    (updCell l r f).find? (fun p => p.1 == ref)
      = l.find? (fun p => p.1 == ref) := by
  have hru : (r == ref) = false := beq_eq_false_iff_ne.mpr (Ne.symm h)
  induction l with
  | nil => simp [updCell, List.find?, hru]
  | cons p t ih =>
    obtain ⟨r', c⟩ := p
    by_cases hr : r' = r
    · subst hr
      simp [updCell, List.find?, hru]
    · simp only [updCell, if_neg hr]
      cases hre : (r' == ref) with
      | true => simp [List.find?, hre]
      | false => simp [List.find?, hre, ih]

theorem getCell_setFill_ne (s : Sheet) (r ref : Char × Nat) (f : Fill)
    (h : ref ≠ r) : getCell (setFill s r f) ref = getCell s ref := by
  unfold getCell setFill
  rw [find?_updCell_ne _ _ _ _ h]

theorem getCell_setFont_ne (s : Sheet) (r ref : Char × Nat) (b : Bool)
    (h : ref ≠ r) : getCell (setFont s r b) ref = getCell s ref := by
  unfold getCell setFont
  rw [find?_updCell_ne _ _ _ _ h]

theorem getCell_setValue_ne (s : Sheet) (r ref : Char × Nat) (v : Str)
    (h : ref ≠ r) : getCell (setValue s r v) ref = getCell s ref := by
  unfold getCell setValue
  rw [find?_updCell_ne _ _ _ _ h]

/-- Marking the same row green and bold a second time leaves the
worksheet exactly as after the first marking. -/
theorem mark_verde_idem (s : Sheet) (fila : Nat) :
    setFont (setFill (setFont (setFill s ('A', fila) Fill.verde)
        ('A', fila) true) ('A', fila) Fill.verde) ('A', fila) true
      = setFont (setFill s ('A', fila) Fill.verde) ('A', fila) true := by
  unfold setFont setFill
  simp only [Sheet.mk.injEq]
  constructor
  · rw [updCell_updCell_same, updCell_updCell_same, updCell_updCell_same,
      updCell_updCell_same]
  · simp [max_assoc, max_self]

/-! ## Claim C3 — no mutation before confirmation -/

/-- C3: for a format-valid code that is not present in the dataset (not
among the `codigo` column's values, hence absent from the code→row dict),
a reconcile step without confirmation returns the pending-confirmation
message and changes nothing: neither the worksheet, nor the session
DataFrame, nor the persisted store file, nor the backup (`wb.save` is not
even reached, because the pending message contains neither `"agregado"`
nor `"marcado"`). -/
theorem c3_pending_confirmation_no_mutation (codigo : Str) (df0 : DataFrame)
    (vals : List (Option Str)) (idx : List (Str × Nat)) (ms : MutState)
    (h1 : strictMatchUpper codigo = true)
    (h2 : dfGet df0 (strLit "codigo") = Except.ok vals)
    (h3 : vals.contains (some codigo) = false)
    (h4 : dictLookup idx codigo = none) :
    escaneo_paso codigo df0 idx ms false none none
      = Except.ok (msgPendiente, ms) ∧
    actualizar_excel codigo idx ms false none = (msgPendiente, ms) := by
  have h3' : some codigo ∉ vals := by simpa using h3
  have hval : validar_codigo codigo df0 = Except.ok (true, []) := by
    simp [validar_codigo, h1, h2, h3']
  have hact : actualizar_excel codigo idx ms false none = (msgPendiente, ms) := by
    simp [actualizar_excel, h4]
  refine ⟨?_, hact⟩
  rw [escaneo_paso, hval]
  simp [hact,
    show containsSub (strLit "agregado") msgPendiente = false from by decide,
    show containsSub (strLit "marcado") msgPendiente = false from by decide]

/-- The example worksheet: a header row and one data row holding the code
`B1234567` in cell A2. -/
def sheetEjemplo : Sheet :=
  ⟨[((('A' : Char), 1), ⟨some (strLit "codigo"), none, false⟩),
    ((('A' : Char), 2), ⟨some (strLit "B1234567"), none, false⟩)], 2⟩

/-- The example run state built from `sheetEjemplo` and `dfEjemplo`, with
the store file in sync and no backup yet. -/
def msEjemplo : MutState := ⟨sheetEjemplo, dfEjemplo, sheetEjemplo, none⟩

/-- C3 witness: the code `B7654321` is format-valid and absent from
`dfEjemplo`, and without confirmation the step returns the pending
message with the state untouched. -/
theorem c3_pending_confirmation_no_mutation_witness :
    escaneo_paso (strLit "B7654321") dfEjemplo (codigo_a_fila dfEjemplo)
      msEjemplo false none none = Except.ok (msgPendiente, msEjemplo) ∧
    actualizar_excel (strLit "B7654321") (codigo_a_fila dfEjemplo)
      msEjemplo false none = (msgPendiente, msEjemplo) :=
  c3_pending_confirmation_no_mutation (strLit "B7654321") dfEjemplo
    [some (strLit "B1234567")] (codigo_a_fila dfEjemplo) msEjemplo
    (by decide) (by rfl) (by decide) (by decide)

/-! ## Claim C7 — matching an existing code is idempotent -/

/-- C7: for a code present in the code→row dict, reconciling is
idempotent: both invocations return the "found and marked green" message,
the second invocation leaves the state exactly as the first left it, and
the first invocation changes neither the session DataFrame (no growth)
nor the store file nor the backup — only the worksheet cell's marking. -/
theorem c7_match_idempotent (codigo : Str) (fila : Nat)
    (idx : List (Str × Nat)) (ms : MutState) (c1 c2 : Bool)
    (h : dictLookup idx codigo = some fila) :
    (actualizar_excel codigo idx ms c1 none).1 = msgEncontrado codigo ∧
    (actualizar_excel codigo idx
        ((actualizar_excel codigo idx ms c1 none).2) c2 none).1
      = msgEncontrado codigo ∧
    (actualizar_excel codigo idx
        ((actualizar_excel codigo idx ms c1 none).2) c2 none).2
      = (actualizar_excel codigo idx ms c1 none).2 ∧
    (actualizar_excel codigo idx ms c1 none).2.sessionDf = ms.sessionDf ∧
    (actualizar_excel codigo idx ms c1 none).2.file = ms.file ∧
    (actualizar_excel codigo idx ms c1 none).2.backup = ms.backup := by
  refine ⟨?_, ?_, ?_, ?_, ?_, ?_⟩ <;> simp [actualizar_excel, h, mark_verde_idem]

/-- C7 witness: reconciling the existing code `B1234567` of the example
state twice. -/
theorem c7_match_idempotent_witness :
    (actualizar_excel (strLit "B1234567") (codigo_a_fila dfEjemplo)
      msEjemplo false none).1 = msgEncontrado (strLit "B1234567") ∧
    (actualizar_excel (strLit "B1234567") (codigo_a_fila dfEjemplo)
        ((actualizar_excel (strLit "B1234567") (codigo_a_fila dfEjemplo)
          msEjemplo false none).2) false none).1
      = msgEncontrado (strLit "B1234567") ∧
    (actualizar_excel (strLit "B1234567") (codigo_a_fila dfEjemplo)
        ((actualizar_excel (strLit "B1234567") (codigo_a_fila dfEjemplo)
          msEjemplo false none).2) false none).2
      = (actualizar_excel (strLit "B1234567") (codigo_a_fila dfEjemplo)
          msEjemplo false none).2 ∧
    (actualizar_excel (strLit "B1234567") (codigo_a_fila dfEjemplo)
      msEjemplo false none).2.sessionDf = msEjemplo.sessionDf ∧
    (actualizar_excel (strLit "B1234567") (codigo_a_fila dfEjemplo)
      msEjemplo false none).2.file = msEjemplo.file ∧
    (actualizar_excel (strLit "B1234567") (codigo_a_fila dfEjemplo)
      msEjemplo false none).2.backup = msEjemplo.backup :=
  c7_match_idempotent (strLit "B1234567") 2 (codigo_a_fila dfEjemplo)
    msEjemplo false false (by decide)

/-! ## Claim C10 — the Reconciler writes only to column A -/

/-- C10: every worksheet mutation of one `actualizar_excel` call —
highlighting a matched row or appending a confirmed new code — touches a
single cell `A<row>`: there is one row number such that every other cell
of the sheet reads exactly as before, whatever column was detected as the
code column (the detected column never enters `actualizar_excel` at
all). -/
theorem c10_writes_only_column_A (codigo : Str) (idx : List (Str × Nat))
    (ms : MutState) (confirmado : Bool) (excep : Option Str) :
    ∃ fil : Nat, ∀ ref : Char × Nat, ref ≠ ('A', fil) →
      getCell ((actualizar_excel codigo idx ms confirmado excep).2.sheet) ref
        = getCell ms.sheet ref := by
  unfold actualizar_excel
  cases excep with
  | some e => exact ⟨0, fun ref _ => rfl⟩
  | none =>
    cases hl : dictLookup idx codigo with
    | some fila =>
      refine ⟨fila, fun ref hne => ?_⟩
      simp only
      rw [getCell_setFont_ne _ _ _ _ hne, getCell_setFill_ne _ _ _ _ hne]
    | none =>
      cases confirmado with
      | false => exact ⟨0, fun ref _ => rfl⟩
      | true =>
        refine ⟨ms.sheet.maxRow + 1, fun ref hne => ?_⟩
        simp only [if_true]
        rw [getCell_setFont_ne _ _ _ _ hne, getCell_setFill_ne _ _ _ _ hne,
          getCell_setValue_ne _ _ _ _ hne]

/-- C10 witness: the general statement at the concrete example state, on
the confirmed-append path. -/
theorem c10_writes_only_column_A_witness :
    ∃ fil : Nat, ∀ ref : Char × Nat, ref ≠ ('A', fil) →
      getCell ((actualizar_excel (strLit "B7654321")
          (codigo_a_fila dfEjemplo) msEjemplo true none).2.sheet) ref
        = getCell msEjemplo.sheet ref :=
  c10_writes_only_column_A (strLit "B7654321") (codigo_a_fila dfEjemplo)
    msEjemplo true none

/-! ## Claim C1 — the row lookup uses a precomputed index, and it goes
stale within a run -/

/-- C1: the row lookup of `actualizar_excel` (line 69) consults the
`codigo_a_fila` dict precomputed at line 163, which is *not* refreshed
when a confirmed append mutates the dataset (lines 78-84).  Concretely,
within one script run over the example state: a confirmed scan of the new
code `B7654321` appends it — afterwards it is among the session
DataFrame's `codigo` values and sits in cell A3 of the worksheet and of
the saved store — yet a second scan of the very same code in the same run
is *not* answered with the "found and marked" outcome: it falls into the
stale not-found branch and returns the pending-confirmation message
again.  This exhibits the stale-precomputed-index behaviour the spec
explicitly brands as a bug. -/
theorem c1_stale_precomputed_index_bug :
    ∃ ms1, escaneo_paso (strLit "B7654321") dfEjemplo
        (codigo_a_fila dfEjemplo) msEjemplo true none none
        = Except.ok (msgAgregado (strLit "B7654321"), ms1) ∧
      some (strLit "B7654321") ∈ dfGetD ms1.sessionDf (strLit "codigo") ∧
      getCell ms1.sheet ('A', 3)
        = ⟨some (strLit "B7654321"), some Fill.morado, true⟩ ∧
      getCell ms1.file ('A', 3)
        = ⟨some (strLit "B7654321"), some Fill.morado, true⟩ ∧
      escaneo_paso (strLit "B7654321") dfEjemplo (codigo_a_fila dfEjemplo)
        ms1 false none none = Except.ok (msgPendiente, ms1) ∧
      msgPendiente ≠ msgEncontrado (strLit "B7654321") := by
  refine ⟨_, rfl, by decide, by decide, by decide, rfl, by decide⟩

/-! ## Claim C8 — what happens when the backing-store write fails -/

/-- C8 counterexample: the claim says a backing-store write failure is
caught and surfaced as an error-message outcome, but `wb.save` (line 190)
sits *outside* the `try`/`except` of `actualizar_excel`: when the save of
a confirmed append fails, the exception propagates to the caller uncaught
instead of becoming a message. -/
theorem c8_save_failure_uncaught_counterexample :
    escaneo_paso (strLit "B7654321") dfEjemplo (codigo_a_fila dfEjemplo)
      msEjemplo true none (some (strLit "disk full"))
      = Except.error (PyErr.ioError (strLit "disk full")) := by
  decide

/-- C8 (amended): exceptions raised *inside* the reconcile step are
caught by its `try`/`except` and surfaced as an
`"Error al actualizar Excel: ..."` message with the state unchanged (and
the caller then does not even attempt the save, since that message
contains neither `"agregado"` nor `"marcado"`); but a failure of the
`wb.save` persistence call itself, which runs outside that handler,
propagates to the caller as an uncaught exception. -/
theorem c8_internal_caught_save_uncaught :
    (∀ codigo idx ms confirmado e,
      actualizar_excel codigo idx ms confirmado (some e) = (msgError e, ms)) ∧
    escaneo_paso (strLit "B7654321") dfEjemplo (codigo_a_fila dfEjemplo)
      msEjemplo true (some (strLit "cell write failed")) none
      = Except.ok (msgError (strLit "cell write failed"), msEjemplo) ∧
    escaneo_paso (strLit "B7654321") dfEjemplo (codigo_a_fila dfEjemplo)
      msEjemplo true none (some (strLit "no space left on device"))
      = Except.error (PyErr.ioError (strLit "no space left on device")) := by
  exact ⟨fun codigo idx ms confirmado e => rfl, by decide, by decide⟩

/-! ## Claim C9 — the hard-coded column name in the duplicate check -/

/-- A DataFrame whose first (detected) code column is `CODIGO` but which
also carries a second column literally named `codigo`. -/
def dfDosColumnas : DataFrame :=
  ⟨[(strLit "CODIGO", [some (strLit "B1234567")]),
    (strLit "codigo", [some (strLit "B7654321")])]⟩

/-- A DataFrame whose only column is the accented `Código`. -/
def dfAcento : DataFrame :=
  ⟨[(strLit "Código", [some (strLit "B1234567")])]⟩

/-- A DataFrame whose only column is `CODIGO`. -/
def dfMayusculas : DataFrame :=
  ⟨[(strLit "CODIGO", [some (strLit "B1234567")])]⟩

/-- C9 counterexample: the claim quantifies over *every* dataset whose
code column is detected but not literally named `codigo`, and claims an
uncaught `KeyError`; on `dfDosColumnas` the detected column is `CODIGO`
(≠ `codigo`), yet the duplicate check finds the other column and returns
an ordinary duplicate outcome — no `KeyError`.  Moreover the claim's
example column `Código` is not even detected by the substring rule: the
accented `ó` never matches the `o` of `codigo`. -/
theorem c9_detected_column_counterexample :
    codigo_columna dfDosColumnas = some (strLit "CODIGO") ∧
    ¬ strLit "CODIGO" = strLit "codigo" ∧
    validar_codigo (strLit "B7654321") dfDosColumnas
      = Except.ok (false, msgExiste) ∧
    codigo_columna dfAcento = none := by
  decide

/-- C9 (amended): for every dataset whose code column is detected by the
case-insensitive substring rule but is not literally named `codigo`
(e.g. `CODIGO`), and which has no other column literally named `codigo`,
the Validator's duplicate check on a format-valid candidate fails with a
`KeyError('codigo')` instead of returning a validation outcome — and the
scan step propagates that exception uncaught. -/
theorem c9_hardcoded_column_keyerror (df : DataFrame) (col codigo : Str)
    (_h1 : codigo_columna df = some col)
    (_h2 : ¬ col = strLit "codigo")
    (h3 : ∀ p ∈ df.cols, ¬ p.1 = strLit "codigo")
    (h4 : strictMatchUpper codigo = true) :
    validar_codigo codigo df
      = Except.error (PyErr.keyError (strLit "codigo")) ∧
    ∀ idx ms confirmado excep falla,
      escaneo_paso codigo df idx ms confirmado excep falla
        = Except.error (PyErr.keyError (strLit "codigo")) := by
  have hget : dfGet df (strLit "codigo")
      = Except.error (PyErr.keyError (strLit "codigo")) := by
    unfold dfGet
    have hnone : df.cols.find? (fun p => p.1 == strLit "codigo") = none := by
      rw [List.find?_eq_none]
      intro p hp
      simp [h3 p hp]
    rw [hnone]
  have hval : validar_codigo codigo df
      = Except.error (PyErr.keyError (strLit "codigo")) := by
    simp [validar_codigo, h4, hget]
  exact ⟨hval, fun idx ms confirmado excep falla => by rw [escaneo_paso, hval]⟩

/-- C9 witness: the amended statement at the concrete dataset
`dfMayusculas` (detected column `CODIGO`, no literal `codigo` column) and
the format-valid candidate `B7654321`. -/
theorem c9_hardcoded_column_keyerror_witness :
    validar_codigo (strLit "B7654321") dfMayusculas
      = Except.error (PyErr.keyError (strLit "codigo")) ∧
    ∀ idx ms confirmado excep falla,
      escaneo_paso (strLit "B7654321") dfMayusculas idx ms confirmado
        excep falla
        = Except.error (PyErr.keyError (strLit "codigo")) :=
  c9_hardcoded_column_keyerror dfMayusculas (strLit "CODIGO")
    (strLit "B7654321") (by decide) (by decide) (by decide) (by decide)
